import Mathlib

set_option maxHeartbeats 1000000

/-!
Shallow embedding of the mpv-remote HTTP server (`server-rewrite.py`,
together with the HTML directory viewer of `server.py`).  Python strings are
Lean `String`s, bytes are `List Nat`, the process-wide mutable state is
passed explicitly, and code that can raise returns an explicit exception
component.  String primitives (strip, split, replace, percent-decoding) are
implemented by structural recursion over the character list so that every
definition evaluates by kernel reduction.
-/

namespace Mpv

/-- ASCII whitespace recognised by Python `str.strip` (space, tab, newline,
carriage return, vertical tab, form feed). -/
def isPyWs (c : Char) : Bool :=
  c == ' ' || c == '\t' || c == '\n' || c == '\r' || c == '\x0b' || c == '\x0c'

/-- Python `str.strip()`: drop leading and trailing ASCII whitespace. -/
def pyStrip (s : String) : String :=
  ⟨((s.data.dropWhile isPyWs).reverse.dropWhile isPyWs).reverse⟩

/-- Whitespace test on a byte, for Python `bytes.strip()`. -/
def isPyWsByte (b : Nat) : Bool :=
  b == 32 || b == 9 || b == 10 || b == 13 || b == 11 || b == 12

/-- Python `bytes.strip()`. -/
def bytesStrip (bs : List Nat) : List Nat :=
  ((bs.dropWhile isPyWsByte).reverse.dropWhile isPyWsByte).reverse

/-- Whether the first list is a prefix of the second, as a boolean. -/
def isPrefixOfChars : List Char → List Char → Bool
  | [], _ => true
  | _ :: _, [] => false
  | a :: as, b :: bs => a == b && isPrefixOfChars as bs

/-- Python `s.startswith(p)`. -/
def pyStartsWith (s p : String) : Bool := isPrefixOfChars p.data s.data

/-- Python `s[n:]` on strings indexed by characters. -/
def strDrop (s : String) (n : Nat) : String := ⟨s.data.drop n⟩

/-- Characters of a line before the first occurrence of the given character,
i.e. Python `s.split(ch, 1)[0]`. -/
def takeBeforeChar (ch : Char) : List Char → List Char
  | [] => []
  | c :: t => if c == ch then [] else c :: takeBeforeChar ch t

/-- Python `s.split('#', 1)[0]`. -/
def beforeHash (s : String) : String := ⟨takeBeforeChar '#' s.data⟩

/-- Splitting a character list on a separator character, Python
`s.split(ch)` (so the result is never empty). -/
def splitOnChar (ch : Char) : List Char → List (List Char)
  | [] => [[]]
  | c :: t =>
    if c == ch then [] :: splitOnChar ch t
    else
      match splitOnChar ch t with
      | [] => [[c]]
      | h :: r => (c :: h) :: r

/-- Lower-casing of a string (ASCII letters, matching the use the server
makes of `str.lower` on file names). -/
def lowerStr (s : String) : String := ⟨s.data.map Char.toLower⟩

/-- The base64 alphabet used by `base64.standard_b64encode`. -/
def b64Alphabet : List Char :=
  "ABCDEFGHIJKLMNOPQRSTUVWXYZabcdefghijklmnopqrstuvwxyz0123456789+/".data

/-- Character of the base64 alphabet at a 6-bit index. -/
def b64Char (n : Nat) : Char := b64Alphabet.getD n 'A'

/-- base64 encoding of a byte list as `base64.standard_b64encode` produces
it: three input bytes become four alphabet characters, a final group of two
or one bytes is padded with `=`. -/
def b64EncodeChars : List Nat → List Char
  | b0 :: b1 :: b2 :: rest =>
      b64Char ((b0 % 256) / 4) ::
      b64Char ((b0 % 4) * 16 + (b1 % 256) / 16) ::
      b64Char ((b1 % 16) * 4 + (b2 % 256) / 64) ::
      b64Char (b2 % 64) :: b64EncodeChars rest
  | [b0, b1] =>
      [b64Char ((b0 % 256) / 4), b64Char ((b0 % 4) * 16 + (b1 % 256) / 16),
       b64Char ((b1 % 16) * 4), '=']
  | [b0] =>
      [b64Char ((b0 % 256) / 4), b64Char ((b0 % 4) * 16), '=', '=']
  | [] => []

/-- `base64.standard_b64encode`, decoded back to a string as the server does
with `login.decode()`. -/
def standard_b64encode (bs : List Nat) : String := ⟨b64EncodeChars bs⟩

/-- Value of a hexadecimal digit, if the character is one. -/
def hexVal (c : Char) : Option Nat :=
  if '0' ≤ c ∧ c ≤ '9' then some (c.toNat - '0'.toNat)
  else if 'a' ≤ c ∧ c ≤ 'f' then some (c.toNat - 'a'.toNat + 10)
  else if 'A' ≤ c ∧ c ≤ 'F' then some (c.toNat - 'A'.toNat + 10)
  else none

/-- Percent-decoding of `urllib.parse.unquote`, restricted to single-byte
escapes (a multi-byte UTF-8 escape sequence is decoded byte by byte here);
an invalid escape is left untouched, as in Python. -/
def unquoteChars : List Char → List Char
  | '%' :: a :: b :: rest =>
      match hexVal a, hexVal b with
      | some x, some y => Char.ofNat (16 * x + y) :: unquoteChars rest
      | _, _ => '%' :: unquoteChars (a :: b :: rest)
  | c :: rest => c :: unquoteChars rest
  | [] => []

/-- `urllib.parse.unquote` on a string. -/
def unquote (s : String) : String := ⟨unquoteChars s.data⟩

/-- Replacement of every occurrence of the two-character placeholder of a
format string by the argument, scanning left to right. -/
def replacePlaceholder (rep : List Char) : List Char → List Char
  | [] => []
  | [c] => [c]
  | c1 :: c2 :: t =>
    if c1 == '\x7b' && c2 == '\x7d' then rep ++ replacePlaceholder rep t
    else c1 :: replacePlaceholder rep (c2 :: t)

/-- Python `str.format` with one positional argument, for command templates
whose only replacement fields are bare placeholders. -/
def pyFormat (tmpl arg : String) : String :=
  ⟨replacePlaceholder arg.data tmpl.data⟩

/-- Nonempty run of decimal digits. -/
def allDigits (l : List Char) : Bool := !l.isEmpty && l.all Char.isDigit

/-- Mantissa of a Python float literal: digits with an optional dot and at
least one digit overall. -/
def floatMantissa (m : List Char) : Bool :=
  match splitOnChar '.' m with
  | [a] => allDigits a
  | [a, b] => a.all Char.isDigit && b.all Char.isDigit && (!a.isEmpty || !b.isEmpty)
  | _ => false

/-- Exponent part of a Python float literal: an optional sign and digits. -/
def floatExponent (ex : List Char) : Bool :=
  match ex with
  | '+' :: t => allDigits t
  | '-' :: t => allDigits t
  | t => allDigits t

/-- Recogniser for the strings `float()` accepts (the ASCII fragment:
optional surrounding whitespace and sign, decimal digits with an optional
dot and exponent, or `inf`, `infinity`, `nan` in any letter case). -/
def isPyFloat (s : String) : Bool :=
  let t := (lowerStr (pyStrip s)).data
  let t := match t with
           | '+' :: r => r
           | '-' :: r => r
           | r => r
  if t = "inf".data || t = "infinity".data || t = "nan".data then true
  else
    match splitOnChar 'e' t with
    | [m] => floatMantissa m
    | [m, ex] => floatMantissa m && floatExponent ex
    | _ => false

/-- The option names generated by the allow-list regular expression
`((secondary-)?(a|s|v)(id|lang)|(sub|audio)(-delay))` of
`Config.folder_config`. -/
def allowedKeys : List String :=
  ["aid", "alang", "sid", "slang", "vid", "vlang",
   "secondary-aid", "secondary-alang", "secondary-sid", "secondary-slang",
   "secondary-vid", "secondary-vlang", "sub-delay", "audio-delay"]

/-- Characters admitted in an override value by the class `[0-9a-z\.\-]`. -/
def allowedValueChar (c : Char) : Bool :=
  c.isDigit || ('a' ≤ c && c ≤ 'z') || c == '.' || c == '-'

/-- Whether `re.match` succeeds on a line for the anchored allow-list
pattern: the whole line must be an allow-listed option name, an equals sign,
and a nonempty run of admitted value characters. -/
def allowedMatch (c : String) : Bool :=
  allowedKeys.any fun k =>
    pyStartsWith c (k ++ "=") &&
      (let v := strDrop c (k.length + 1)
       !v.data.isEmpty && v.data.all allowedValueChar)

/-- Parsing of the global `mpv.conf` flags (the body of
`Config.mpv_config`): every nonempty line whose stripped form does not start
with `#` contributes `--` followed by the part of its stripped form before
the first `#`. -/
def mpv_config_lines (lines : List String) : List String :=
  lines.filterMap fun o =>
    if o ≠ "" && !pyStartsWith (pyStrip o) "#" then
      some ("--" ++ beforeHash (pyStrip o))
    else none

/-- Modelled from the spec: the global-flag pipeline in the order the
specification states it — split each line on `#` to drop the comment, trim
whitespace, skip lines that are empty or comment-only after that, and prefix
each survivor with `--`. -/
def specGlobalFlags (lines : List String) : List String :=
  lines.filterMap fun o =>
    let t := pyStrip (beforeHash o)
    if t = "" then none else some ("--" ++ t)

/-- Modelled from the amended claim: skip lines that are empty or whose
stripped form starts with `#`; strip each surviving line first and then keep
everything before its first `#` without further trimming (so an inline
comment leaves the whitespace that preceded it inside the flag), prefixed
with `--`. -/
def specGlobalFlagsAmended (lines : List String) : List String :=
  lines.filterMap fun o =>
    if o = "" || pyStartsWith (pyStrip o) "#" then none
    else some ("--" ++ beforeHash (pyStrip o))

/-- Configuration loaded at startup by `Config.__init__`: the parsed
commands table, the raw lines of `mpv.conf`, and the raw bytes of the
optional `login` file (`none` when that file is absent). -/
structure Config where
  commands : List (String × String)
  mpvConfLines : List String
  loginBytes : Option (List Nat)

/-- Lookup in the commands dict (a repeated name overwrites the earlier
binding, so the last one wins). -/
def Config.lookupCommand (cfg : Config) (c : String) : Option String :=
  (cfg.commands.reverse.find? (fun kv => kv.1 == c)).map (·.2)

/-- `Config.mpv_config`, which re-reads and parses `mpv.conf` on each call. -/
def Config.mpv_config (cfg : Config) : List String :=
  mpv_config_lines cfg.mpvConfLines

/-- `Config.login`: when a `login` file is present its stripped bytes are
base64-encoded and the request is authorised exactly when the
`Authorization` header equals `Basic ` followed by that encoding; with no
`login` file every request is authorised. -/
def Config.login (cfg : Config) (auth : Option String) : Bool :=
  match cfg.loginBytes with
  | some bs => auth == some ("Basic " ++ standard_b64encode (bytesStrip bs))
  | none => true

/-- The parts of the filesystem the request handlers consult, abstracted as
read-only functions: the lines of the `mpv-remote.conf` of a directory (`none`
when that file is absent), the literal listing of the static asset
directory, the readable static files, the index page, and the JSON text
produced by `FolderContent.as_json` for a directory (`Except` carrying the
text of a raised listing error). -/
structure Fs where
  folderConfLines : String → Option (List String)
  staticListing : List String
  staticFile : String → Option String
  indexFile : Option String
  folderContent : String → Except String String

/-- Splitting a path string on `/`. -/
def splitOnSlash (s : String) : List String :=
  (splitOnChar '/' s.data).map (fun l => ⟨l⟩)

/-- Joining path components with `/`. -/
def joinSlash : List String → String
  | [] => ""
  | [a] => a
  | a :: rest => a ++ "/" ++ joinSlash rest

/-- Parent directory in the sense of `pathlib.Path(fpath).parent`, for
ordinary relative or absolute POSIX paths. -/
def parentDir (p : String) : String :=
  let isAbs := pyStartsWith p "/"
  let comps := (splitOnSlash p).filter (fun s => s ≠ "" && s ≠ ".")
  match comps.dropLast with
  | [] => if isAbs then "/" else "."
  | par => (if isAbs then "/" else "") ++ joinSlash par

/-- `Config.folder_config`: read `mpv-remote.conf` in the directory of the
target, keep exactly the lines matched by the allow-list pattern, and prefix
each with `--`; an absent file contributes nothing. -/
def Config.folder_config (fs : Fs) (fpath : String) : List String :=
  match fs.folderConfLines (parentDir fpath) with
  | some lines => (lines.filter allowedMatch).map (fun c => "--" ++ c)
  | none => []

/-- A raised Python exception, abstracted to its class and rendered
message (quotes of the original messages are dropped). -/
inductive PyExn
  | typeError (msg : String)
  | osError (msg : String)
deriving DecidableEq

/-- The text `str(e)` used for error bodies. -/
def PyExn.msg : PyExn → String
  | .typeError m => m
  | .osError m => m

/-- Events delivered to a player process: a write on its control stream
(its standard input), a flush of that stream, and `Popen.kill`. -/
inductive ProcEvent
  | ctrlWrite (data : String)
  | flushEv
  | killEv
deriving DecidableEq

/-- A player process handle: its pid, whether the process is live (a write
on the control stream of a dead process raises `BrokenPipeError`, while a
live player accepts control writes), and the events delivered to it. -/
structure Proc where
  pid : Nat
  alive : Bool
  events : List ProcEvent
deriving DecidableEq

/-- The process-wide mutable state: the current `mpv_process` handle, the
handles discarded by earlier replacements, and a log of the argument vector
of every spawn performed. -/
structure ServerState where
  mpv_process : Option Proc
  graveyard : List Proc
  spawned : List (List String)
deriving DecidableEq

/-- Every process handle ever attributable to the service. -/
def ServerState.procs (st : ServerState) : List Proc :=
  st.graveyard ++ (match st.mpv_process with | some p => [p] | none => [])

/-- The live processes attributable to the service. -/
def ServerState.liveProcs (st : ServerState) : List Proc :=
  st.procs.filter (·.alive)

/-- Executable name of the player on a POSIX host. -/
def mpv_executable : String := "mpv"

/-- The fixed leading arguments of every spawn performed by `play_file`. -/
def basePlayArgs : List String :=
  [mpv_executable, "--input-terminal=no", "--input-file=/dev/stdin", "--fs"]

/-- `MpvRequestHandler.play_file`: inside a catch-all handler, write `quit`
to the old process, flush, and kill it — a dead process raises on the write,
so the kill is skipped for it and the failure is only logged; then resolve
the argument vector and spawn the player on it.  `spawnOk` says whether
`Popen` itself succeeds; its failure is raised out of `play_file` after the
old process has already been handled, so the partially-updated state is
returned along with the exception, and on success the old handle is
discarded in favour of the new one. -/
def play_file (cfg : Config) (fs : Fs) (st : ServerState) (fpath : String)
    (newPid : Nat) (spawnOk : Bool) : ServerState × Option PyExn :=
  let st1 : ServerState :=
    match st.mpv_process with
    | none => st
    | some p =>
      if p.alive then
        let p1 : Proc :=
          { p with
            alive := false,
            events := p.events ++ [.ctrlWrite "quit\n", .flushEv, .killEv] }
        { st with mpv_process := some p1 }
      else st
  let cmd := basePlayArgs ++ Config.mpv_config cfg ++ Config.folder_config fs fpath
      ++ ["--"] ++ [fpath]
  if spawnOk then
    ({ mpv_process := some { pid := newPid, alive := true, events := [] },
       graveyard := st1.graveyard ++
         (match st1.mpv_process with | some p => [p] | none => []),
       spawned := st1.spawned ++ [cmd] }, none)
  else
    (st1, some (.osError ("No such file or directory: " ++ mpv_executable)))

/-- The command names that take a numeric parameter. -/
def numericCommands : List String := ["vol_set", "seek", "subdelay", "audiodelay"]

/-- The value carried after sanitising: Python `None`, or an accepted float
literal (kept as its text; no later step inspects the numeric value, so its
re-rendering by `str.format` is modelled as the literal itself). -/
inductive SanVal
  | noneVal
  | num (lit : String)
deriving DecidableEq

/-- Rendering of the sanitised value by `str.format`. -/
def SanVal.render : SanVal → String
  | .noneVal => "None"
  | .num lit => lit

/-- `MpvRequestHandler.sanitize`: for a command of the numeric-parameter set
the value must parse as a float; a failing string parse raises `ValueError`,
which is caught and turns the value into `None`, but a `None` value makes
`float` raise `TypeError`, which the `except ValueError` clause does not
catch, so that exception propagates to the caller.  Any other command gets a
`None` value. -/
def sanitize (command : Option String) (val : Option String) :
    Except PyExn (Option String × SanVal) :=
  match command with
  | some c =>
    if c ∈ numericCommands then
      match val with
      | none => .error (.typeError "float() argument must be a string or a real number, not NoneType")
      | some s => if isPyFloat s then .ok (command, .num s) else .ok (command, .noneVal)
    else .ok (command, .noneVal)
  | none => .ok (none, .noneVal)

/-- `MpvRequestHandler.control_mpv`: sanitise first (outside any handler, so
an exception from `sanitize` propagates), then inside a catch-all handler
look up the command template, format it with the value, and write it plus a
newline to the control stream, flushing.  An absent session, an unknown
command name and a dead control stream all raise inside that handler and are
only logged. -/
def control_mpv (cfg : Config) (st : ServerState)
    (command val : Option String) : ServerState × Option PyExn :=
  match sanitize command val with
  | .error e => (st, some e)
  | .ok (c, v) =>
    match st.mpv_process with
    | none => (st, none)
    | some p =>
      match c.bind cfg.lookupCommand with
      | none => (st, none)
      | some tmpl =>
        if p.alive then
          let p1 : Proc :=
            { p with
              events := p.events ++
                [.ctrlWrite (pyFormat tmpl v.render ++ "\n"), .flushEv] }
          ({ st with mpv_process := some p1 }, none)
        else (st, none)

/-- The responses the request handlers send. -/
inductive Response
  | ok (body : String)
  | notfound (body : String)
  | unauthorized (wwwAuthenticate : String)
deriving DecidableEq

/-- The challenge header value sent by `ask_auth`. -/
def basicChallenge : String := "Basic realm=\x22mpv-remote\x22"

/-- `MpvRequestHandler.serve_static`: the path after `/static/` is unquoted
and looked up in the literal listing of the static directory; a miss is
answered not-found without touching the filesystem, a hit is opened and
served (an open or read failure is answered with an error body).  The second
component records which files were opened. -/
def serve_static (fs : Fs) (path : String) : Response × List String :=
  let requested := unquote (strDrop path "/static/".length)
  if requested ∈ fs.staticListing then
    match fs.staticFile requested with
    | some data => (.ok data, [requested])
    | none => (.notfound "error reading file", [requested])
  else (.notfound "file not found", [])

/-- `MpvRequestHandler.do_GET`: the authorisation gate first, then static
assets, the index page for `/`, and not-found otherwise; an exception inside
the handler becomes a not-found response carrying its text. -/
def do_GET (cfg : Config) (fs : Fs) (auth : Option String) (path : String) :
    Response × List String :=
  if !cfg.login auth then (.unauthorized basicChallenge, [])
  else if pyStartsWith path "/static/" then serve_static fs path
  else if path = "/" then
    match fs.indexFile with
    | some data => (.ok data, ["index.html"])
    | none => (.notfound "No such file or directory: index.html", [])
  else (.notfound "404", [])

/-- The decoded JSON body of a POST request: a path-segment array for `/dir`
and `/play`, or the `command`/`val` object for `/control` (the bodies the
client actually sends; a body of the wrong shape for its path is not
modelled). -/
inductive PostBody
  | segs (l : List String)
  | ctrl (command : Option String) (val : Option String)
deriving DecidableEq

/-- Python `os.path.join(*segs)`: raises `TypeError` when the segment list
is empty, and otherwise folds the segments together with `/`, an absolute
segment restarting the path. -/
def os_path_join : List String → Except PyExn String
  | [] => .error (.typeError "join() missing 1 required positional argument: path")
  | p :: rest => .ok (rest.foldl (fun acc b =>
      if pyStartsWith b "/" then b
      else if acc = "" || acc.data.getLast? == some '/' then acc ++ b
      else acc ++ "/" ++ b) p)

/-- `MpvRequestHandler.do_POST`: the authorisation gate first; then `/dir`,
`/play` and `/control` are dispatched inside a catch-all handler that turns
any raised exception into a not-found response carrying its text.  A POST
whose path matches no branch sends no response (`none`).  The two extra
arguments fix the pid of a newly spawned player and whether `Popen`
succeeds. -/
def do_POST (cfg : Config) (fs : Fs) (st : ServerState) (auth : Option String)
    (path : String) (body : PostBody) (newPid : Nat) (spawnOk : Bool) :
    Option Response × ServerState :=
  if !cfg.login auth then (some (.unauthorized basicChallenge), st)
  else
    match path, body with
    | "/dir", .segs l =>
      match os_path_join l with
      | .error e => (some (.notfound e.msg), st)
      | .ok dp =>
        match fs.folderContent dp with
        | .ok j => (some (.ok j), st)
        | .error e => (some (.notfound e), st)
    | "/play", .segs l =>
      match os_path_join l with
      | .error e => (some (.notfound e.msg), st)
      | .ok fp =>
        match play_file cfg fs st fp newPid spawnOk with
        | (st1, none) => (some (.ok ""), st1)
        | (st1, some e) => (some (.notfound e.msg), st1)
    | "/control", .ctrl c v =>
      match control_mpv cfg st c v with
      | (st1, none) => (some (.ok ""), st1)
      | (st1, some e) => (some (.notfound e.msg), st1)
    | _, _ => (none, st)

/-- Kind of a directory item as probed by `Path.is_dir` and `Path.is_file`
(an item can be neither, e.g. a socket). -/
inductive EntryKind
  | dir
  | file
  | other
deriving DecidableEq

/-- A filesystem item as `DirectoryViewer` sees it: the full path string
`str(x)`, its final component `x.parts[-1]`, its kind, and its modification
time (only ever compared, so modelled as an integer). -/
structure DirEntry where
  name : String
  base : String
  kind : EntryKind
  mtime : Int
deriving DecidableEq

/-- `DirectoryViewer.sort_compare`, with only the sign of the Python float
result retained: directories before non-directories; two directories by
modification time, a later one first; anything else by the lowercased full
path text, ascending. -/
def sort_compare (a b : DirEntry) : Int :=
  if a.kind = .dir then
    if b.kind = .dir then (if a.mtime < b.mtime then 1 else -1)
    else -1
  else
    if b.kind = .dir then 1
    else (if lowerStr b.name < lowerStr a.name then 1 else -1)

/-- The boolean order induced on items by `sort_compare` through
`functools.cmp_to_key`: `a` may precede `b` exactly when the comparator is
negative. -/
def viewerLe (a b : DirEntry) : Bool := sort_compare a b < 0

/-- The ordered listing rendered by `generate_content_links`: the valid
items sorted by `sort_compare` (Python `sorted` is a stable merge sort),
with hidden entries and entries that are neither files nor directories
skipped during rendering. -/
def renderedEntries (items : List DirEntry) : List DirEntry :=
  (items.mergeSort viewerLe).filter
    (fun x => !pyStartsWith x.base "." && (x.kind == EntryKind.file || x.kind == EntryKind.dir))

/-- A small concrete configuration with a `login` file, used to instantiate
the theorems on concrete inputs. -/
def cfgSecured : Config :=
  { commands := [("pause", "cycle pause"), ("seek", "seek \x7b\x7d 0")],
    mpvConfLines := ["fullscreen", "#comment", "volume=50"],
    loginBytes := some [104, 105, 10] }

/-- The same configuration without a `login` file. -/
def cfgOpen : Config := { cfgSecured with loginBytes := none }

/-- A small concrete filesystem. -/
def fsDemo : Fs :=
  { folderConfLines := fun d => if d = "/media" then some ["sid=2", "fs=yes"] else none,
    staticListing := ["index.html", "app.js", "style.css"],
    staticFile := fun n => if n = "app.js" then some "js" else none,
    indexFile := some "index",
    folderContent := fun _ => .ok "listing" }

/-- Server state with no player yet. -/
def stIdle : ServerState := { mpv_process := none, graveyard := [], spawned := [] }

/-- Server state with one live player. -/
def stLive : ServerState :=
  { mpv_process := some { pid := 3, alive := true, events := [] },
    graveyard := [], spawned := [] }

/-- Whether an `Except` computation succeeded. -/
def exceptOk {ε α : Type} : Except ε α → Bool
  | .ok _ => true
  | .error _ => false

/-- Appending the same string on the left is injective. -/
theorem string_append_left_cancel {a b c : String} (h : a ++ b = a ++ c) : b = c := by
  cases a with | mk ad =>
  cases b with | mk bd =>
  cases c with | mk cd =>
  have hd : ad ++ bd = ad ++ cd := congrArg String.data h
  exact congrArg String.mk (List.append_cancel_left hd)

/-- C7: for every GET `/static/<name>` request, the (unquoted) requested
name is checked for membership in the literal listing of the static asset
directory, not resolved against the filesystem; any name not in that listing
(for example one containing `..`) receives a not-found response and no file
is opened. -/
theorem C7_static_listing_guard (fs : Fs) (path : String)
    (h : unquote (strDrop path "/static/".length) ∉ fs.staticListing) :
    serve_static fs path = (Response.notfound "file not found", []) := by
  simp [serve_static, h]

/-- Witness for C7 at the traversal request of the spec scenario. -/
theorem C7_static_listing_guard_witness :
    unquote (strDrop "/static/../secret" "/static/".length) ∉ fsDemo.staticListing ∧
    serve_static fsDemo "/static/../secret" = (Response.notfound "file not found", []) :=
  ⟨by decide, C7_static_listing_guard fsDemo "/static/../secret" (by decide)⟩

/-- C10: a POST to `/play` or `/dir` whose JSON body is an empty segment
array raises inside `os.path.join`, is answered with a generic not-found
response carrying the exception text, and leaves the player state untouched:
nothing is quit, killed or spawned. -/
theorem C10_empty_segments (cfg : Config) (fs : Fs) (st : ServerState)
    (auth : Option String) (path : String) (pid : Nat) (sp : Bool)
    (hauth : cfg.login auth = true) (hpath : path = "/play" ∨ path = "/dir") :
    do_POST cfg fs st auth path (.segs []) pid sp =
      (some (.notfound "join() missing 1 required positional argument: path"), st) := by
  rcases hpath with h | h <;> subst h <;>
    simp [do_POST, hauth, os_path_join, PyExn.msg]

/-- Witness for C10 on the concrete live-player state. -/
theorem C10_empty_segments_witness :
    cfgOpen.login none = true ∧
    do_POST cfgOpen fsDemo stLive none "/play" (.segs []) 7 true =
      (some (.notfound "join() missing 1 required positional argument: path"), stLive) :=
  ⟨by decide,
   C10_empty_segments cfgOpen fsDemo stLive none "/play" 7 true (by decide) (Or.inl rfl)⟩

/-- C9: the argument vector of every spawn performed by `play_file` is the
fixed player arguments followed by the global flags, then the directory
override flags of the target, then `--` and the target path, in exactly that
order. -/
theorem C9_spawn_argument_order (cfg : Config) (fs : Fs) (st : ServerState)
    (fpath : String) (pid : Nat) :
    ((play_file cfg fs st fpath pid true).1).spawned =
      st.spawned ++ [basePlayArgs ++ Config.mpv_config cfg ++
        Config.folder_config fs fpath ++ ["--", fpath]] := by
  cases hp : st.mpv_process with
  | none => simp [play_file, hp]
  | some p => by_cases ha : p.alive <;> simp [play_file, hp, ha]

/-- C8 counterexample: on a file consisting of the line `foo #bar` the code
produces `--foo ` with a trailing space, because it strips the line first
and then cuts at `#`, while the pipeline of the claim (split on `#`, then
trim) produces `--foo`. -/
theorem C8_counterexample :
    mpv_config_lines ["foo #bar"] = ["--foo "] ∧
    specGlobalFlags ["foo #bar"] = ["--foo"] ∧
    mpv_config_lines ["foo #bar"] ≠ specGlobalFlags ["foo #bar"] := by decide

/-- C8 (amended): the resolved global flag list is obtained by skipping
lines that are empty or whose stripped form starts with `#`, and for each
survivor trimming the whole line first and then keeping everything before
its first `#` — without further trimming, so an inline comment leaves the
whitespace that preceded it inside the flag — prefixed with `--`; the
spec scenario `fullscreen` / `#comment` / `volume=50` still resolves to
exactly `--fullscreen`, `--volume=50`. -/
theorem C8_global_flag_parsing (lines : List String) :
    mpv_config_lines lines = specGlobalFlagsAmended lines ∧
    mpv_config_lines ["fullscreen", "#comment", "volume=50"] =
      ["--fullscreen", "--volume=50"] := by
  refine ⟨?_, by decide⟩
  simp only [mpv_config_lines, specGlobalFlagsAmended]
  congr 1
  funext o
  by_cases h1 : o = ""
  · simp [h1]
  · by_cases h2 : pyStartsWith (pyStrip o) "#" = true <;> simp [h1, h2]

/-- C5: a line of a per-directory `mpv-remote.conf` contributes a flag
(`--` followed by the line) to the resolved override flag set exactly when
it matches the fixed allow-list pattern, and everything in that flag set
comes from a matching line — a non-matching line is dropped. -/
theorem C5_allowlist_filter (fs : Fs) (fpath : String) (lines : List String)
    (hconf : fs.folderConfLines (parentDir fpath) = some lines) :
    (∀ c ∈ lines,
      (("--" ++ c) ∈ Config.folder_config fs fpath ↔ allowedMatch c = true)) ∧
    (∀ f ∈ Config.folder_config fs fpath,
      ∃ c ∈ lines, allowedMatch c = true ∧ f = "--" ++ c) := by
  constructor
  · intro c hc
    constructor
    · intro hmem
      rw [Config.folder_config, hconf] at hmem
      obtain ⟨c2, hc2, heq⟩ := List.mem_map.mp hmem
      obtain ⟨hc2mem, hc2match⟩ := List.mem_filter.mp hc2
      have hcc : c2 = c := string_append_left_cancel heq
      exact hcc ▸ hc2match
    · intro hmatch
      rw [Config.folder_config, hconf]
      exact List.mem_map.mpr ⟨c, List.mem_filter.mpr ⟨hc, hmatch⟩, rfl⟩
  · intro f hf
    rw [Config.folder_config, hconf] at hf
    obtain ⟨c, hc, heq⟩ := List.mem_map.mp hf
    obtain ⟨hcm, hcmatch⟩ := List.mem_filter.mp hc
    exact ⟨c, hcm, hcmatch, heq.symm⟩

/-- Witness for C5 on a directory override with one matching and one
non-matching line. -/
theorem C5_allowlist_filter_witness :
    fsDemo.folderConfLines (parentDir "/media/x.mkv") = some ["sid=2", "fs=yes"] ∧
    ((∀ c ∈ ["sid=2", "fs=yes"],
        (("--" ++ c) ∈ Config.folder_config fsDemo "/media/x.mkv" ↔
          allowedMatch c = true)) ∧
     (∀ f ∈ Config.folder_config fsDemo "/media/x.mkv",
        ∃ c ∈ ["sid=2", "fs=yes"], allowedMatch c = true ∧ f = "--" ++ c)) :=
  ⟨by decide, C5_allowlist_filter fsDemo "/media/x.mkv" ["sid=2", "fs=yes"] (by decide)⟩

/-- With a `login` file present, authorisation succeeds exactly on the
expected `Basic` header. -/
theorem login_secured {cfg : Config} {bs : List Nat} (h : cfg.loginBytes = some bs)
    (auth : Option String) :
    cfg.login auth = true ↔
      auth = some ("Basic " ++ standard_b64encode (bytesStrip bs)) := by
  simp [Config.login, h]

/-- With no `login` file, every request is authorised. -/
theorem login_open {cfg : Config} (h : cfg.loginBytes = none) (auth : Option String) :
    cfg.login auth = true := by
  simp [Config.login, h]

/-- `serve_static` never produces the 401 response. -/
theorem serve_static_not_unauthorized (fs : Fs) (path : String) (ch : String) :
    (serve_static fs path).1 ≠ Response.unauthorized ch := by
  simp only [serve_static]
  split
  · split <;> simp
  · simp

/-- An authorised GET request is never answered with 401. -/
theorem do_GET_auth_ok (cfg : Config) (fs : Fs) (auth : Option String) (path : String)
    (h : cfg.login auth = true) (ch : String) :
    (do_GET cfg fs auth path).1 ≠ Response.unauthorized ch := by
  simp only [do_GET, h, Bool.not_true, Bool.false_eq_true, if_false]
  split
  · exact serve_static_not_unauthorized fs path ch
  · split
    · split <;> simp
    · simp

/-- An unauthorised GET request is answered with 401 and the challenge. -/
theorem do_GET_auth_fail (cfg : Config) (fs : Fs) (auth : Option String) (path : String)
    (h : cfg.login auth = false) :
    (do_GET cfg fs auth path).1 = Response.unauthorized basicChallenge := by
  simp [do_GET, h]

/-- An authorised POST request is never answered with 401. -/
theorem do_POST_auth_ok (cfg : Config) (fs : Fs) (st : ServerState)
    (auth : Option String) (path : String) (body : PostBody) (pid : Nat) (sp : Bool)
    (h : cfg.login auth = true) (ch : String) :
    (do_POST cfg fs st auth path body pid sp).1 ≠
      some (Response.unauthorized ch) := by
  simp only [do_POST, h, Bool.not_true, Bool.false_eq_true, if_false]
  split
  · split
    · simp
    · split <;> simp
  · split
    · simp
    · split <;> simp
  · split <;> simp
  · simp

/-- An unauthorised POST request is answered with 401 and the challenge. -/
theorem do_POST_auth_fail (cfg : Config) (fs : Fs) (st : ServerState)
    (auth : Option String) (path : String) (body : PostBody) (pid : Nat) (sp : Bool)
    (h : cfg.login auth = false) :
    (do_POST cfg fs st auth path body pid sp).1 =
      some (Response.unauthorized basicChallenge) := by
  simp [do_POST, h]

/-- C6: with a credential loaded from a `login` file, a request (GET or
POST) is answered with the 401 challenge exactly when its `Authorization`
header differs from `Basic ` followed by the base64 credential; with no
`login` file, no request is ever answered with the 401 challenge, whatever
the header. -/
theorem C6_authorization (cfgSec cfgNoLogin : Config) (fs : Fs) (st : ServerState)
    (auth : Option String) (gpath ppath : String) (body : PostBody)
    (pid : Nat) (sp : Bool) (bs : List Nat)
    (hsec : cfgSec.loginBytes = some bs) (hopen : cfgNoLogin.loginBytes = none) :
    ((do_GET cfgSec fs auth gpath).1 = Response.unauthorized basicChallenge ↔
       auth ≠ some ("Basic " ++ standard_b64encode (bytesStrip bs))) ∧
    ((do_POST cfgSec fs st auth ppath body pid sp).1 =
        some (Response.unauthorized basicChallenge) ↔
       auth ≠ some ("Basic " ++ standard_b64encode (bytesStrip bs))) ∧
    (do_GET cfgNoLogin fs auth gpath).1 ≠ Response.unauthorized basicChallenge ∧
    (do_POST cfgNoLogin fs st auth ppath body pid sp).1 ≠
      some (Response.unauthorized basicChallenge) := by
  have hfail : auth ≠ some ("Basic " ++ standard_b64encode (bytesStrip bs)) →
      cfgSec.login auth = false := by
    intro hne
    cases hb : cfgSec.login auth
    · rfl
    · exact absurd ((login_secured hsec auth).mp hb) hne
  refine ⟨⟨?_, ?_⟩, ⟨?_, ?_⟩, ?_, ?_⟩
  · intro hu hauth
    exact do_GET_auth_ok cfgSec fs auth gpath
      ((login_secured hsec auth).mpr hauth) basicChallenge hu
  · intro hne
    exact do_GET_auth_fail cfgSec fs auth gpath (hfail hne)
  · intro hu hauth
    exact do_POST_auth_ok cfgSec fs st auth ppath body pid sp
      ((login_secured hsec auth).mpr hauth) basicChallenge hu
  · intro hne
    exact do_POST_auth_fail cfgSec fs st auth ppath body pid sp (hfail hne)
  · exact do_GET_auth_ok cfgNoLogin fs auth gpath (login_open hopen auth) basicChallenge
  · exact do_POST_auth_ok cfgNoLogin fs st auth ppath body pid sp
      (login_open hopen auth) basicChallenge

/-- Witness for C6: an absent `Authorization` header against the secured
and the open configuration. -/
theorem C6_authorization_witness :
    cfgSecured.loginBytes = some [104, 105, 10] ∧ cfgOpen.loginBytes = none ∧
    (((do_GET cfgSecured fsDemo none "/").1 = Response.unauthorized basicChallenge ↔
        none ≠ some ("Basic " ++ standard_b64encode (bytesStrip [104, 105, 10]))) ∧
     ((do_POST cfgSecured fsDemo stLive none "/play" (.segs ["/a"]) 7 true).1 =
         some (Response.unauthorized basicChallenge) ↔
        none ≠ some ("Basic " ++ standard_b64encode (bytesStrip [104, 105, 10]))) ∧
     (do_GET cfgOpen fsDemo none "/").1 ≠ Response.unauthorized basicChallenge ∧
     (do_POST cfgOpen fsDemo stLive none "/play" (.segs ["/a"]) 7 true).1 ≠
       some (Response.unauthorized basicChallenge)) :=
  ⟨rfl, rfl,
   C6_authorization cfgSecured cfgOpen fsDemo stLive none "/" "/play"
     (.segs ["/a"]) 7 true [104, 105, 10] rfl rfl⟩

/-- C1: when a player session already exists, a successful `play_file` call
leaves exactly one live player process attributable to the service, and a
live prior process received the quit directive on its control stream, then
the flush, then the kill, in that order. -/
theorem C1_replace_single_live (cfg : Config) (fs : Fs) (st : ServerState)
    (fpath : String) (pid : Nat) (p : Proc)
    (hsess : st.mpv_process = some p)
    (hgrave : ∀ q ∈ st.graveyard, q.alive = false) :
    (play_file cfg fs st fpath pid true).2 = none ∧
    (play_file cfg fs st fpath pid true).1.liveProcs.length = 1 ∧
    (p.alive = true →
      ∃ q ∈ (play_file cfg fs st fpath pid true).1.procs,
        q.pid = p.pid ∧
          q.events = p.events ++ [.ctrlWrite "quit\n", .flushEv, .killEv]) := by
  have hgnil : st.graveyard.filter (·.alive) = [] := by
    rw [List.filter_eq_nil_iff]
    intro q hq
    simp [hgrave q hq]
  by_cases ha : p.alive = true
  · refine ⟨by simp [play_file, hsess, ha], ?_, ?_⟩
    · simp [play_file, hsess, ha, ServerState.liveProcs, ServerState.procs,
        List.filter_append, hgnil]
    · intro _
      have hmem : (⟨p.pid, false,
          p.events ++ [.ctrlWrite "quit\n", .flushEv, .killEv]⟩ : Proc) ∈
          (play_file cfg fs st fpath pid true).1.procs := by
        simp [play_file, hsess, ha, ServerState.procs]
      exact ⟨_, hmem, rfl, rfl⟩
  · have ha2 : p.alive = false := by
      cases hb : p.alive
      · rfl
      · exact absurd hb ha
    refine ⟨by simp [play_file, hsess, ha2], ?_, fun hc => absurd hc ha⟩
    simp [play_file, hsess, ha2, ServerState.liveProcs, ServerState.procs,
      List.filter_append, hgnil]

/-- Witness for C1 on the concrete live-player state. -/
theorem C1_replace_single_live_witness :
    stLive.mpv_process = some { pid := 3, alive := true, events := [] } ∧
    (∀ q ∈ stLive.graveyard, q.alive = false) ∧
    ((play_file cfgOpen fsDemo stLive "/media/x.mkv" 7 true).2 = none ∧
     (play_file cfgOpen fsDemo stLive "/media/x.mkv" 7 true).1.liveProcs.length = 1 ∧
     (({ pid := 3, alive := true, events := [] } : Proc).alive = true →
       ∃ q ∈ (play_file cfgOpen fsDemo stLive "/media/x.mkv" 7 true).1.procs,
         q.pid = ({ pid := 3, alive := true, events := [] } : Proc).pid ∧
           q.events = ({ pid := 3, alive := true, events := [] } : Proc).events ++
             [.ctrlWrite "quit\n", .flushEv, .killEv])) :=
  ⟨rfl, by decide,
   C1_replace_single_live cfgOpen fsDemo stLive "/media/x.mkv" 7
     { pid := 3, alive := true, events := [] } rfl (by decide)⟩

/-- A successful spawn makes `play_file` return without an exception. -/
theorem play_file_spawn_ok_snd (cfg : Config) (fs : Fs) (st : ServerState)
    (fpath : String) (pid : Nat) :
    (play_file cfg fs st fpath pid true).2 = none := by
  simp [play_file]

/-- A failing spawn is raised out of `play_file`. -/
theorem play_file_spawn_fail_snd (cfg : Config) (fs : Fs) (st : ServerState)
    (fpath : String) (pid : Nat) :
    (play_file cfg fs st fpath pid false).2 =
      some (.osError ("No such file or directory: " ++ mpv_executable)) := by
  simp [play_file]

/-- When `sanitize` succeeds, `control_mpv` never raises: an absent session,
an unknown command and a dead control stream are all swallowed. -/
theorem control_mpv_no_raise (cfg : Config) (st : ServerState) (c v : Option String)
    (hsan : exceptOk (sanitize c v) = true) :
    (control_mpv cfg st c v).2 = none := by
  unfold control_mpv
  cases hs : sanitize c v with
  | error e => rw [hs] at hsan; simp [exceptOk] at hsan
  | ok pr =>
    obtain ⟨c1, v1⟩ := pr
    cases hm : st.mpv_process with
    | none => simp
    | some p =>
      cases hl : c1.bind cfg.lookupCommand with
      | none => simp [hl]
      | some tmpl => by_cases hp : p.alive = true <;> simp [hl, hp]

/-- Reduction of the authorised `/play` branch of `do_POST`. -/
theorem do_POST_play_reduces (cfg : Config) (fs : Fs) (st : ServerState)
    (auth : Option String) (fp : String) (pid : Nat) (sp : Bool)
    (segs : List String)
    (hauth : cfg.login auth = true) (hjoin : os_path_join segs = .ok fp) :
    do_POST cfg fs st auth "/play" (.segs segs) pid sp =
      (match play_file cfg fs st fp pid sp with
       | (st1, none) => (some (Response.ok ""), st1)
       | (st1, some e) => (some (Response.notfound e.msg), st1)) := by
  simp [do_POST, hauth, hjoin]

/-- Reduction of the authorised `/control` branch of `do_POST`. -/
theorem do_POST_control_reduces (cfg : Config) (fs : Fs) (st : ServerState)
    (auth : Option String) (c v : Option String) (pid : Nat) (sp : Bool)
    (hauth : cfg.login auth = true) :
    do_POST cfg fs st auth "/control" (.ctrl c v) pid sp =
      (match control_mpv cfg st c v with
       | (st1, none) => (some (Response.ok ""), st1)
       | (st1, some e) => (some (Response.notfound e.msg), st1)) := by
  simp [do_POST, hauth]

/-- C3 (amended): control-stream failures are swallowed — once `sanitize`
succeeds, a `/control` request is answered with success whatever the player
state, and a `/play` request whose spawn succeeds is answered with success
even when the quit-write to the old player failed; but a player spawn
failure propagates out of `play_file`, and the dispatcher answers the
`/play` request with a generic not-found response carrying the exception
text instead of a success response. -/
theorem C3_player_io_errors (cfg : Config) (fs : Fs) (st : ServerState)
    (auth : Option String) (c v : Option String) (segs : List String)
    (pid : Nat) (sp : Bool)
    (hauth : cfg.login auth = true)
    (hsan : exceptOk (sanitize c v) = true)
    (hsegs : segs ≠ []) :
    (do_POST cfg fs st auth "/control" (.ctrl c v) pid sp).1 =
      some (Response.ok "") ∧
    (do_POST cfg fs st auth "/play" (.segs segs) pid true).1 =
      some (Response.ok "") ∧
    (do_POST cfg fs st auth "/play" (.segs segs) pid false).1 =
      some (Response.notfound ("No such file or directory: " ++ mpv_executable)) := by
  refine ⟨?_, ?_, ?_⟩
  · rw [do_POST_control_reduces cfg fs st auth c v pid sp hauth]
    have h := control_mpv_no_raise cfg st c v hsan
    rcases hc : control_mpv cfg st c v with ⟨st1, exn⟩
    rw [hc] at h
    cases exn
    · simp
    · simp at h
  · cases segs with
    | nil => exact absurd rfl hsegs
    | cons s t =>
      obtain ⟨fp, hfp⟩ : ∃ fp, os_path_join (s :: t) = .ok fp := ⟨_, rfl⟩
      rw [do_POST_play_reduces cfg fs st auth fp pid true (s :: t) hauth hfp]
      have h := play_file_spawn_ok_snd cfg fs st fp pid
      rcases hp : play_file cfg fs st fp pid true with ⟨st1, exn⟩
      rw [hp] at h
      cases exn
      · simp
      · simp at h
  · cases segs with
    | nil => exact absurd rfl hsegs
    | cons s t =>
      obtain ⟨fp, hfp⟩ : ∃ fp, os_path_join (s :: t) = .ok fp := ⟨_, rfl⟩
      rw [do_POST_play_reduces cfg fs st auth fp pid false (s :: t) hauth hfp]
      have h := play_file_spawn_fail_snd cfg fs st fp pid
      rcases hp : play_file cfg fs st fp pid false with ⟨st1, exn⟩
      rw [hp] at h
      cases exn with
      | none => simp at h
      | some e =>
        have he : e = PyExn.osError ("No such file or directory: " ++ mpv_executable) := by
          simpa using h
        subst he
        simp [PyExn.msg]

/-- C3 counterexample: with no session and a failing player spawn, a
`/play` request is answered with a not-found error response carrying the
exception text — not with the success response the claim promises for a
failed spawn. -/
theorem C3_counterexample :
    (do_POST cfgOpen fsDemo stIdle none "/play"
        (.segs ["/media", "x.mkv"]) 7 false).1 =
      some (Response.notfound "No such file or directory: mpv") ∧
    some (Response.notfound "No such file or directory: mpv") ≠
      some (Response.ok "") := by
  exact ⟨by decide, by decide⟩

/-- Witness for the amended C3 on concrete requests. -/
theorem C3_player_io_errors_witness :
    cfgOpen.login none = true ∧
    exceptOk (sanitize (some "pause") none) = true ∧
    (["/media", "x.mkv"] : List String) ≠ [] ∧
    ((do_POST cfgOpen fsDemo stIdle none "/control"
        (.ctrl (some "pause") none) 7 true).1 = some (Response.ok "") ∧
     (do_POST cfgOpen fsDemo stIdle none "/play"
        (.segs ["/media", "x.mkv"]) 7 true).1 = some (Response.ok "") ∧
     (do_POST cfgOpen fsDemo stIdle none "/play"
        (.segs ["/media", "x.mkv"]) 7 false).1 =
       some (Response.notfound ("No such file or directory: " ++ mpv_executable))) :=
  ⟨by decide, by decide, by decide,
   C3_player_io_errors cfgOpen fsDemo stIdle none (some "pause") none
     ["/media", "x.mkv"] 7 true (by decide) (by decide) (by decide)⟩

/-- C4 (amended): for a numeric command, a string value that does not parse
as a float degrades to a `None` substitution — the request succeeds and the
formatted template, with `None` filled in, is written to the live control
stream — but an absent/null value makes `float` raise `TypeError`, which the
`except ValueError` handler does not catch, so the dispatcher rejects the
request with a generic error response and nothing is written. -/
theorem C4_numeric_values (cfg : Config) (fs : Fs) (st : ServerState)
    (auth : Option String) (c s tmpl : String) (p : Proc)
    (pid : Nat) (sp : Bool)
    (hauth : cfg.login auth = true)
    (hc : c ∈ numericCommands) (hs : isPyFloat s = false)
    (hp : st.mpv_process = some p) (ha : p.alive = true)
    (htmpl : cfg.lookupCommand c = some tmpl) :
    (do_POST cfg fs st auth "/control" (.ctrl (some c) (some s)) pid sp).1 =
      some (Response.ok "") ∧
    (do_POST cfg fs st auth "/control" (.ctrl (some c) (some s)) pid sp).2.mpv_process =
      some (⟨p.pid, p.alive, p.events ++
        [.ctrlWrite (pyFormat tmpl "None" ++ "\n"), .flushEv]⟩ : Proc) ∧
    do_POST cfg fs st auth "/control" (.ctrl (some c) none) pid sp =
      (some (Response.notfound
        "float() argument must be a string or a real number, not NoneType"), st) := by
  have hsan : sanitize (some c) (some s) = .ok (some c, SanVal.noneVal) := by
    simp [sanitize, hc, hs]
  have hsan2 : sanitize (some c) none =
      .error (.typeError
        "float() argument must be a string or a real number, not NoneType") := by
    simp [sanitize, hc]
  have hcm : control_mpv cfg st (some c) (some s) =
      ({ st with mpv_process := some (⟨p.pid, p.alive, p.events ++
          [.ctrlWrite (pyFormat tmpl "None" ++ "\n"), .flushEv]⟩ : Proc) }, none) := by
    unfold control_mpv
    rw [hsan]
    simp [hp, Option.bind, htmpl, ha, SanVal.render]
  have hcm2 : control_mpv cfg st (some c) none =
      (st, some (.typeError
        "float() argument must be a string or a real number, not NoneType")) := by
    unfold control_mpv
    rw [hsan2]
  refine ⟨?_, ?_, ?_⟩
  · rw [do_POST_control_reduces cfg fs st auth (some c) (some s) pid sp hauth, hcm]
  · rw [do_POST_control_reduces cfg fs st auth (some c) (some s) pid sp hauth, hcm]
  · rw [do_POST_control_reduces cfg fs st auth (some c) none pid sp hauth, hcm2]
    simp [PyExn.msg]

/-- C4 counterexample: a `/control` request for the numeric command `seek`
with an absent value is rejected with a generic error response, the state is
unchanged, and nothing is written to the live control stream — not the
success-with-null-substitution the claim promises for absent values. -/
theorem C4_counterexample :
    do_POST cfgOpen fsDemo stLive none "/control" (.ctrl (some "seek") none) 7 true =
      (some (Response.notfound
        "float() argument must be a string or a real number, not NoneType"), stLive) ∧
    some (Response.notfound
        "float() argument must be a string or a real number, not NoneType") ≠
      some (Response.ok "") := by
  exact ⟨by decide, by decide⟩

/-- Witness for the amended C4 on the command `seek` with the non-numeric
value `abc` against a live player. -/
theorem C4_numeric_values_witness :
    cfgOpen.login none = true ∧
    "seek" ∈ numericCommands ∧
    isPyFloat "abc" = false ∧
    stLive.mpv_process = some { pid := 3, alive := true, events := [] } ∧
    cfgOpen.lookupCommand "seek" = some "seek \x7b\x7d 0" ∧
    ((do_POST cfgOpen fsDemo stLive none "/control"
        (.ctrl (some "seek") (some "abc")) 7 true).1 = some (Response.ok "") ∧
     (do_POST cfgOpen fsDemo stLive none "/control"
        (.ctrl (some "seek") (some "abc")) 7 true).2.mpv_process =
       some (⟨3, true, [.ctrlWrite (pyFormat "seek \x7b\x7d 0" "None" ++ "\n"),
         .flushEv]⟩ : Proc) ∧
     do_POST cfgOpen fsDemo stLive none "/control"
        (.ctrl (some "seek") none) 7 true =
       (some (Response.notfound
         "float() argument must be a string or a real number, not NoneType"), stLive)) :=
  ⟨by decide, by decide, by decide, rfl, by decide,
   C4_numeric_values cfgOpen fsDemo stLive none "seek" "abc" "seek \x7b\x7d 0"
     { pid := 3, alive := true, events := [] } 7 true
     (by decide) (by decide) (by decide) rfl rfl (by decide)⟩

/-- Characterisation of the order induced by `sort_compare`: directories
before everything else, directories by descending modification time,
non-directories by ascending lowercased path text. -/
theorem viewerLe_iff (a b : DirEntry) :
    viewerLe a b = true ↔
      (a.kind = EntryKind.dir ∧ b.kind ≠ EntryKind.dir) ∨
      (a.kind = EntryKind.dir ∧ b.kind = EntryKind.dir ∧ b.mtime ≤ a.mtime) ∨
      (a.kind ≠ EntryKind.dir ∧ b.kind ≠ EntryKind.dir ∧
        lowerStr a.name ≤ lowerStr b.name) := by
  have h1 : ¬ ((1 : Int) < 0) := by decide
  have h2 : ((-1 : Int) < 0) := by decide
  rcases a with ⟨an, ab, ak, am⟩
  rcases b with ⟨bn, bb, bk, bm⟩
  cases ak <;> cases bk <;>
    simp [viewerLe, sort_compare, h1, h2, not_lt]
  · by_cases hm : am < bm
    · simp [hm, h1, hm.not_le]
    · simp [hm, h2, not_lt.mp hm]
  all_goals
    by_cases hn : (lowerStr bn).data < (lowerStr an).data
  all_goals first
    | simp [hn, h1, hn.not_le]
    | simp [hn, h2, not_lt.mp hn]

/-- The order induced by `sort_compare` is transitive. -/
theorem viewerLe_trans (a b c : DirEntry) :
    viewerLe a b = true → viewerLe b c = true → viewerLe a c = true := by
  simp only [viewerLe_iff]
  rintro (⟨h1, h2⟩ | ⟨h1, h2, h3⟩ | ⟨h1, h2, h3⟩)
    (⟨g1, g2⟩ | ⟨g1, g2, g3⟩ | ⟨g1, g2, g3⟩)
  · exact absurd g1 h2
  · exact absurd g1 h2
  · exact Or.inl ⟨h1, g2⟩
  · exact Or.inl ⟨h1, g2⟩
  · exact Or.inr (Or.inl ⟨h1, g2, le_trans g3 h3⟩)
  · exact absurd h2 g1
  · exact absurd g1 h2
  · exact absurd g1 h2
  · exact Or.inr (Or.inr ⟨h1, g2, le_trans h3 g3⟩)

/-- The order induced by `sort_compare` is total. -/
theorem viewerLe_total (a b : DirEntry) :
    viewerLe a b || viewerLe b a := by
  simp only [Bool.or_eq_true, viewerLe_iff]
  by_cases hak : a.kind = EntryKind.dir <;> by_cases hbk : b.kind = EntryKind.dir
  · rcases le_total b.mtime a.mtime with h | h
    · exact Or.inl (Or.inr (Or.inl ⟨hak, hbk, h⟩))
    · exact Or.inr (Or.inr (Or.inl ⟨hbk, hak, h⟩))
  · exact Or.inl (Or.inl ⟨hak, hbk⟩)
  · exact Or.inr (Or.inl ⟨hbk, hak⟩)
  · rcases le_total (lowerStr a.name) (lowerStr b.name) with h | h
    · exact Or.inl (Or.inr (Or.inr ⟨hak, hbk, h⟩))
    · exact Or.inr (Or.inr (Or.inr ⟨hbk, hak, h⟩))

/-- C2: in every listing rendered by the browsing front end, every directory
entry precedes every file entry, directories appear with later modification
times first, and files appear in ascending case-insensitive lexicographic
order of their path text. -/
theorem C2_rendered_listing_order (items : List DirEntry) :
    (renderedEntries items).Pairwise (fun a b =>
      (b.kind = EntryKind.dir → a.kind = EntryKind.dir) ∧
      (a.kind = EntryKind.dir → b.kind = EntryKind.dir → b.mtime ≤ a.mtime) ∧
      (a.kind = EntryKind.file → b.kind = EntryKind.file →
        lowerStr a.name ≤ lowerStr b.name)) := by
  have hs : (items.mergeSort viewerLe).Pairwise (fun a b => viewerLe a b = true) :=
    List.sorted_mergeSort viewerLe_trans viewerLe_total items
  have hf : (renderedEntries items).Pairwise (fun a b => viewerLe a b = true) :=
    hs.sublist (List.filter_sublist _)
  refine hf.imp ?_
  intro a b hab
  rw [viewerLe_iff] at hab
  refine ⟨?_, ?_, ?_⟩
  · intro hbd
    rcases hab with ⟨h1, _⟩ | ⟨h1, _, _⟩ | ⟨_, h2, _⟩
    · exact h1
    · exact h1
    · exact absurd hbd h2
  · intro _ hbd
    rcases hab with ⟨_, h2⟩ | ⟨_, _, h3⟩ | ⟨h1, _, _⟩
    · exact absurd hbd h2
    · exact h3
    · exact absurd ‹a.kind = EntryKind.dir› h1
  · intro haf hbf
    rcases hab with ⟨h1, _⟩ | ⟨h1, _, _⟩ | ⟨_, _, h3⟩
    · exact EntryKind.noConfusion (haf.symm.trans h1)
    · exact EntryKind.noConfusion (haf.symm.trans h1)
    · exact h3

end Mpv

